import Mathlib

/-!
# DayForge client — shallow embedding and verification

This file embeds the interaction layer of the DayForge single-page client:
the typed data model (`src/types.ts`), the API service layer
(`src/services/api.ts`: request interceptor with token attachment and the
five typed operations) and the application state controller
(`src/components/TodoAssistant.tsx`: the five async handlers and their
reconciliation of backend results into UI state).

Asynchronous handlers are embedded as pure functions from the current state
and the awaited backend outcome (`Except Unit _`, error on a thrown/rejected
call) to the final state together with the list of API calls the handler
emitted. Intermediate `setLoading(true)` states are not observable in the
final state and are not modelled; every claim below is about the state after
the handler settles.
-/

deriving instance DecidableEq for Except

namespace DayForge

/-- Priority enum from `src/types.ts` (`"High" | "Medium" | "Low"`). -/
inductive Priority where
  | High
  | Medium
  | Low
  deriving DecidableEq, Repr

/-- A todo/task item (`interface Todo` in `src/types.ts`). -/
structure Todo where
  id : String
  task : String
  priority : Priority
  completed : Bool
  createdAt : Option String := none
  updatedAt : Option String := none
  deriving DecidableEq, Repr

/-- Request payload for creating a new todo (`interface CreateTodoRequest`);
`completed` is optional in the TypeScript interface. -/
structure CreateTodoRequest where
  task : String
  priority : Priority
  completed : Option Bool := none
  deriving DecidableEq, Repr

/-- Request payload for updating a todo (`interface UpdateTodoRequest`);
every field optional. -/
structure UpdateTodoRequest where
  task : Option String := none
  priority : Option Priority := none
  completed : Option Bool := none
  deriving DecidableEq, Repr

/-- User habits (`interface Habits`). -/
structure Habits where
  workStartTime : String
  workEndTime : String
  breakDuration : Int
  breakFrequency : Int
  focusArea : String
  deriving DecidableEq, Repr

/-- The `breakDuration` of a schedule item is `string | number` in TypeScript. -/
inductive StrOrNum where
  | str (s : String)
  | num (n : Int)
  deriving DecidableEq, Repr

/-- A single scheduled item (`interface ScheduleItem`). -/
structure ScheduleItem where
  time : String
  task : String
  duration : String
  breakDuration : Option StrOrNum := none
  deriving DecidableEq, Repr

/-! ## API service layer (`src/services/api.ts`) -/

/-- Body of an outgoing HTTP request, one constructor per POST/PUT payload
shape used by the API layer. -/
inductive RequestBody where
  | createBody (task : String) (priority : Priority) (completed : Bool)
  | updateBody (u : UpdateTodoRequest)
  | scheduleBody (todos : List Todo) (habits : Habits)
  deriving DecidableEq, Repr

/-- An axios request config as far as the interceptor observes it: method,
url and the `Authorization` header slot (absent on every freshly built
request; the interceptor is the only writer). -/
structure RequestConfig where
  method : String
  url : String
  body : Option RequestBody := none
  authorization : Option String := none
  deriving DecidableEq, Repr

/-- Environment the request interceptor consults when acquiring a token:
whether `msalInstance` is set, the account list returned by
`getAllAccounts()`, and the outcome of `acquireTokenSilent` for the first
account (`.ok accessToken` or `.error message` when it throws). -/
structure MsalEnv where
  hasInstance : Bool
  accounts : List String
  silentOutcome : Except String String
  deriving DecidableEq, Repr

/-- Token acquisition attempted by the request interceptor
(`initializeApi` in `src/services/api.ts`, lines 150-164): error when the
MSAL instance is unset, when `getAllAccounts()` is empty, or when
`acquireTokenSilent` throws; otherwise the access token. -/
def acquireTokenForRequest (env : MsalEnv) : Except String String :=
  if !env.hasInstance then .error "MSAL instance not initialized"
  else match env.accounts with
    | [] => .error "No user account found"
    | _ :: _ => env.silentOutcome

/-- The request interceptor (`apiClient.interceptors.request.use`): on
successful acquisition it sets `config.headers.Authorization` to
`Bearer <token>`; the catch branch swallows the error and returns the
config unchanged, so the request proceeds either way. -/
def runRequestInterceptor (env : MsalEnv) (config : RequestConfig) :
    RequestConfig :=
  match acquireTokenForRequest env with
  | .ok accessToken =>
      { config with authorization := some ("Bearer " ++ accessToken) }
  | .error _ => config

/-- The five typed API operations exposed by the service layer, with the
data each one carries. -/
inductive ApiCall where
  | list
  | create (body : CreateTodoRequest)
  | update (id : String) (body : UpdateTodoRequest)
  | delete (id : String)
  | schedule (todos : List Todo) (habits : Habits)
  deriving DecidableEq, Repr

/-- The HTTP request each API operation builds before the interceptor runs
(`getTodos`, `createTodo`, `updateTodo`, `deleteTodo`, `generateSchedule`
in `src/services/api.ts`). `createTodo` posts
`completed: todoData.completed || false`, defaulting an unset flag to
`false`. -/
def requestOf : ApiCall → RequestConfig
  | .list => { method := "GET", url := "/todos" }
  | .create d =>
      { method := "POST", url := "/todos",
        body := some (.createBody d.task d.priority (d.completed.getD false)) }
  | .update id u =>
      { method := "PUT", url := "/todos/" ++ id, body := some (.updateBody u) }
  | .delete id => { method := "DELETE", url := "/todos/" ++ id }
  | .schedule todos habits =>
      { method := "POST", url := "/schedule",
        body := some (.scheduleBody todos habits) }

/-- Result mapping of `getTodos`: it returns `response.data || []`: the empty list when the
response carries no content, the backend array otherwise. -/
def getTodosResult (data : Option (List Todo)) : List Todo :=
  data.getD []

/-- Result mapping of `generateSchedule`: `response.data || []` likewise. -/
def generateScheduleResult (data : Option (List ScheduleItem)) :
    List ScheduleItem :=
  data.getD []

/-! ## Application state controller (`src/components/TodoAssistant.tsx`) -/

/-- The UI state owned by `TodoAssistant`: the `useState` slots. -/
structure AppState where
  todos : List Todo
  schedule : List ScheduleItem
  loading : Bool
  error : Option String
  showSchedule : Bool
  taskInput : String
  priorityInput : Priority
  habits : Habits
  deriving DecidableEq, Repr

/-- Handler `fetchTodos`: on success the fetched list replaces `todos`; on failure
the generic load message is set; `loading` ends `false` either way
(`finally`). -/
def fetchTodos (s : AppState) (backend : Except Unit (List Todo)) :
    AppState × List ApiCall :=
  match backend with
  | .ok data =>
      ({ s with todos := data, loading := false, error := none }, [.list])
  | .error _ =>
      ({ s with loading := false,
                error := some "Failed to load tasks. Please try again." },
       [.list])

/-- JavaScript `String.prototype.trim`: strip leading and trailing
whitespace. Embedded by structural recursion on the character list so that
it evaluates on concrete strings. -/
def jsTrim (s : String) : String :=
  ⟨((s.data.dropWhile Char.isWhitespace).reverse.dropWhile
      Char.isWhitespace).reverse⟩

/-- Handler `handleAddTask`: a blank (`!taskInput.trim()`) input returns before any
state change or API call; otherwise `createTodo` is called with the form
fields and `completed: false`, and on success the returned todo is appended
and the form resets. -/
def handleAddTask (s : AppState) (backend : Except Unit Todo) :
    AppState × List ApiCall :=
  if jsTrim s.taskInput == "" then (s, [])
  else
    let sent : CreateTodoRequest :=
      { task := s.taskInput, priority := s.priorityInput,
        completed := some false }
    match backend with
    | .ok newTodo =>
        ({ s with todos := s.todos ++ [newTodo], taskInput := "",
                  priorityInput := .Medium, loading := false, error := none },
         [.create sent])
    | .error _ =>
        ({ s with loading := false,
                  error := some "Failed to add task. Please try again." },
         [.create sent])

/-- The partial update `handleToggleTodo` sends: `{ completed: !currentStatus }`. -/
def toggleUpdateRequest (currentStatus : Bool) : UpdateTodoRequest :=
  { task := none, priority := none, completed := some (!currentStatus) }

/-- Handler `handleToggleTodo`: calls `updateTodo(id, { completed: !currentStatus })`
and on success maps over `todos`, substituting the returned todo for every
entry whose id matches. -/
def handleToggleTodo (s : AppState) (id : String) (currentStatus : Bool)
    (backend : Except Unit Todo) : AppState × List ApiCall :=
  match backend with
  | .ok updatedTodo =>
      ({ s with
          todos := s.todos.map (fun todo =>
            if todo.id == id then updatedTodo else todo),
          loading := false, error := none },
       [.update id (toggleUpdateRequest currentStatus)])
  | .error _ =>
      ({ s with loading := false,
                error := some "Failed to update task. Please try again." },
       [.update id (toggleUpdateRequest currentStatus)])

/-- Handler `handleDeleteTodo`: calls `deleteTodo(id)` and on success filters out
the entries whose id matches. -/
def handleDeleteTodo (s : AppState) (id : String)
    (backend : Except Unit Unit) : AppState × List ApiCall :=
  match backend with
  | .ok _ =>
      ({ s with todos := s.todos.filter (fun todo => todo.id != id),
                loading := false, error := none },
       [.delete id])
  | .error _ =>
      ({ s with loading := false,
                error := some "Failed to delete task. Please try again." },
       [.delete id])

/-- Handler `handleGenerateSchedule`: an empty task list sets the validation message
and returns before `setLoading` or any API call; otherwise
`generateSchedule(todos, habits)` is called and on success the returned
schedule replaces the slice and the panel is shown. -/
def handleGenerateSchedule (s : AppState)
    (backend : Except Unit (List ScheduleItem)) : AppState × List ApiCall :=
  if s.todos.length == 0 then
    ({ s with
        error := some "Please add some tasks before generating a schedule." },
     [])
  else
    match backend with
    | .ok generatedSchedule =>
        ({ s with schedule := generatedSchedule, showSchedule := true,
                  loading := false, error := none },
         [.schedule s.todos s.habits])
    | .error _ =>
        ({ s with loading := false,
                  error := some "Failed to generate schedule. Please try again." },
         [.schedule s.todos s.habits])

/-- Backend application of a partial update to a stored task, as assumed by
the round-trip premise of the double-toggle property: each present field of
the partial overwrites the stored field. (The backend service is external
to this repository; this is exactly the premise "the backend applies the
sent partial".) -/
def applyUpdate (t : Todo) (u : UpdateTodoRequest) : Todo :=
  { t with task := u.task.getD t.task,
           priority := u.priority.getD t.priority,
           completed := u.completed.getD t.completed }

/-! ## Concrete data used to instantiate theorems with hypotheses -/

/-- The initial habits object of the component. -/
def habitsDemo : Habits :=
  { workStartTime := "09:00", workEndTime := "17:00", breakDuration := 15,
    breakFrequency := 60, focusArea := "" }

/-- The component's initial state: empty lists, no error, blank form. -/
def emptyStateDemo : AppState :=
  { todos := [], schedule := [], loading := false, error := none,
    showSchedule := false, taskInput := "", priorityInput := .Medium,
    habits := habitsDemo }

/-- A sample stored task. -/
def todoDemo : Todo :=
  { id := "t1", task := "Write report", priority := .High, completed := false }

/-- A second sample stored task with a distinct id. -/
def todoDemo2 : Todo :=
  { id := "t2", task := "Review PR", priority := .Low, completed := true }

/-- The sample task `t2` as returned by the backend after a toggle. -/
def updatedDemo : Todo :=
  { id := "t2", task := "Review PR", priority := .Low, completed := false }

/-- A state holding one task and a non-blank task input. -/
def busyStateDemo : AppState :=
  { emptyStateDemo with todos := [todoDemo], taskInput := "Write report" }

/-- A state holding two tasks with distinct ids. -/
def twoStateDemo : AppState :=
  { emptyStateDemo with todos := [todoDemo, todoDemo2] }

/-- A state whose task input is whitespace-only. -/
def blankStateDemo : AppState :=
  { emptyStateDemo with taskInput := "   " }

/-! ## Helper lemmas -/

/-- Substituting `u` for the entries of id `i` is the identity on a list
containing no such entry. -/
theorem map_subst_eq_self (l : List Todo) (i : String) (u : Todo)
    (h : ∀ x ∈ l, x.id ≠ i) :
    l.map (fun x => if x.id == i then u else x) = l := by
  induction l with
  | nil => rfl
  | cons a tl ih =>
      have ha : (a.id == i) = false :=
        beq_eq_false_iff_ne.mpr (h a (List.mem_cons_self a tl))
      have htl := ih (fun x hx => h x (List.mem_cons_of_mem a hx))
      rw [List.map_cons, htl]
      congr 1
      show (if (a.id == i) = true then u else a) = a
      rw [ha]
      simp

/-- Filtering out the entries of id `i` is the identity on a list containing
no such entry. -/
theorem filter_ne_eq_self (l : List Todo) (i : String)
    (h : ∀ x ∈ l, x.id ≠ i) :
    l.filter (fun x => x.id != i) = l := by
  refine List.filter_eq_self.mpr fun a ha => ?_
  simp [h a ha]

/-- When ids are unique and position `k` holds the entry of id `i`, the
substitution map rewrites exactly position `k`. -/
theorem map_subst_eq_set (l : List Todo) (i : String) (u : Todo) :
    ∀ (k : Nat) (h : k < l.length),
      (l.map (fun x => x.id)).Nodup → (l.get ⟨k, h⟩).id = i →
      l.map (fun x => if x.id == i then u else x) = l.set k u := by
  induction l with
  | nil => intro k h; exact absurd h (by simp)
  | cons a tl ih =>
      intro k h hnd hid
      have hnotin : a.id ∉ tl.map (fun x => x.id) :=
        (List.nodup_cons.mp (by simpa using hnd)).1
      have hndtl : (tl.map (fun x => x.id)).Nodup :=
        (List.nodup_cons.mp (by simpa using hnd)).2
      cases k with
      | zero =>
          have ha : (a.id == i) = true := by
            have : a.id = i := hid
            simp [this]
          have htl : tl.map (fun x => if x.id == i then u else x) = tl := by
            refine map_subst_eq_self tl i u fun x hx he => ?_
            refine hnotin ?_
            have hm : x.id ∈ tl.map (fun x => x.id) := List.mem_map_of_mem _ hx
            rw [he, ← show a.id = i from hid] at hm
            exact hm
          rw [List.map_cons, htl, List.set_cons_zero]
          congr 1
          show (if (a.id == i) = true then u else a) = u
          rw [ha]
          simp
      | succ k =>
          have hk : k < tl.length := by simpa using h
          have hidtl : (tl.get ⟨k, hk⟩).id = i := hid
          have ha : (a.id == i) = false := by
            refine beq_eq_false_iff_ne.mpr fun he => hnotin ?_
            rw [he, ← hidtl]
            exact List.mem_map_of_mem _ (tl.get_mem k hk)
          rw [List.map_cons, ih k hk hndtl hidtl, List.set_cons_succ]
          congr 1
          show (if (a.id == i) = true then u else a) = a
          rw [ha]
          simp

/-- When ids are unique, filtering out the id of `t` from `l₁ ++ t :: l₂`
removes exactly `t`. -/
theorem filter_erase_unique (l₁ l₂ : List Todo) (t : Todo)
    (hnd : ((l₁ ++ t :: l₂).map (fun x => x.id)).Nodup) :
    (l₁ ++ t :: l₂).filter (fun x => x.id != t.id) = l₁ ++ l₂ := by
  rw [List.map_append, List.map_cons] at hnd
  obtain ⟨h1, h2, hdisj⟩ := List.nodup_append.mp hnd
  have hnotin1 : t.id ∉ l₁.map (fun x => x.id) :=
    fun hmem => hdisj hmem (List.mem_cons_self _ _)
  have hnotin2 : t.id ∉ l₂.map (fun x => x.id) := (List.nodup_cons.mp h2).1
  have e1 : l₁.filter (fun x => x.id != t.id) = l₁ :=
    filter_ne_eq_self l₁ t.id fun x hx he =>
      hnotin1 (he ▸ List.mem_map_of_mem _ hx)
  have e2 : l₂.filter (fun x => x.id != t.id) = l₂ :=
    filter_ne_eq_self l₂ t.id fun x hx he =>
      hnotin2 (he ▸ List.mem_map_of_mem _ hx)
  rw [List.filter_append, List.filter_cons]
  simp [e1, e2]

/-! ## Claims -/

/-- C1: for every one of the five API operations, the interceptor first
attempts token acquisition; on success the request goes out with
`Authorization: Bearer <token>` set, and on failure (no MSAL instance, no
account, or silent acquisition throwing) the request still proceeds,
unchanged and without an Authorization header. -/
theorem c1_token_attach_or_proceed :
    ∀ (env : MsalEnv) (op : ApiCall),
      (∃ t, acquireTokenForRequest env = .ok t ∧
        runRequestInterceptor env (requestOf op) =
          { requestOf op with authorization := some ("Bearer " ++ t) }) ∨
      (∃ e, acquireTokenForRequest env = .error e ∧
        runRequestInterceptor env (requestOf op) = requestOf op ∧
        (runRequestInterceptor env (requestOf op)).authorization = none) := by
  intro env op
  cases h : acquireTokenForRequest env with
  | ok t =>
      exact Or.inl ⟨t, rfl, by simp [runRequestInterceptor, h]⟩
  | error e =>
      refine Or.inr ⟨e, rfl, by simp [runRequestInterceptor, h], ?_⟩
      rw [show runRequestInterceptor env (requestOf op) = requestOf op from
        by simp [runRequestInterceptor, h]]
      cases op <;> rfl

/-- C2: with an empty task list, schedule generation emits no API call,
sets the validation message, and leaves the loading flag, task list and
schedule unchanged. -/
theorem c2_generate_empty_no_call (s : AppState)
    (b : Except Unit (List ScheduleItem)) (h : s.todos = []) :
    (handleGenerateSchedule s b).2 = [] ∧
    (handleGenerateSchedule s b).1.error =
      some "Please add some tasks before generating a schedule." ∧
    (handleGenerateSchedule s b).1.loading = s.loading ∧
    (handleGenerateSchedule s b).1.todos = s.todos ∧
    (handleGenerateSchedule s b).1.schedule = s.schedule := by
  simp [handleGenerateSchedule, h]

/-- Witness for C2 at the initial state. -/
theorem c2_generate_empty_no_call_witness :
    (handleGenerateSchedule emptyStateDemo (.ok [])).2 = [] ∧
    (handleGenerateSchedule emptyStateDemo (.ok [])).1.error =
      some "Please add some tasks before generating a schedule." ∧
    (handleGenerateSchedule emptyStateDemo (.ok [])).1.loading =
      emptyStateDemo.loading ∧
    (handleGenerateSchedule emptyStateDemo (.ok [])).1.todos =
      emptyStateDemo.todos ∧
    (handleGenerateSchedule emptyStateDemo (.ok [])).1.schedule =
      emptyStateDemo.schedule :=
  c2_generate_empty_no_call emptyStateDemo (.ok []) rfl

/-- C7: `handleToggleTodo` always sends the partial
`{ completed: !currentStatus }`, and two successful round-trips in which
the backend applies the sent partial restore the original completed
value. -/
theorem c7_double_toggle :
    (∀ (s : AppState) (i : String) (cur : Bool) (b : Except Unit Todo),
      (handleToggleTodo s i cur b).2 =
        [.update i (toggleUpdateRequest cur)]) ∧
    (∀ t : Todo,
      (applyUpdate (applyUpdate t (toggleUpdateRequest t.completed))
          (toggleUpdateRequest
            (applyUpdate t (toggleUpdateRequest t.completed)).completed)
        ).completed = t.completed) := by
  constructor
  · intro s i cur b; cases b <;> rfl
  · intro t; simp [applyUpdate, toggleUpdateRequest]

/-- C8: a blank (whitespace-only or empty) task input makes the add-task
submission a strict no-op: no API call and a state identical to the prior
one (no error, same list, loading flag and form fields). -/
theorem c8_blank_add_noop (s : AppState) (b : Except Unit Todo)
    (h : jsTrim s.taskInput = "") :
    handleAddTask s b = (s, []) := by
  simp [handleAddTask, h]

/-- Witness for C8 at a whitespace-only input. -/
theorem c8_blank_add_noop_witness :
    jsTrim "   " = "" ∧
    handleAddTask blankStateDemo (.error ()) = (blankStateDemo, []) :=
  ⟨by decide, c8_blank_add_noop blankStateDemo (.error ()) (by decide)⟩

/-- C3: on failure of the underlying API call, every handler ends with the
loading flag false, exactly its generic error message, and the task list
and schedule slices unchanged. Load, toggle and delete hold at every
state; for add and generate the underlying call only happens past their
validation guards, so those two conjuncts carry the guard as a premise. -/
theorem c3_failure_sets_generic_error (s : AppState) (i : String)
    (cur : Bool) :
    ((fetchTodos s (.error ())).1.loading = false ∧
     (fetchTodos s (.error ())).1.error =
       some "Failed to load tasks. Please try again." ∧
     (fetchTodos s (.error ())).1.todos = s.todos ∧
     (fetchTodos s (.error ())).1.schedule = s.schedule) ∧
    (¬ jsTrim s.taskInput = "" →
     (handleAddTask s (.error ())).1.loading = false ∧
     (handleAddTask s (.error ())).1.error =
       some "Failed to add task. Please try again." ∧
     (handleAddTask s (.error ())).1.todos = s.todos ∧
     (handleAddTask s (.error ())).1.schedule = s.schedule) ∧
    ((handleToggleTodo s i cur (.error ())).1.loading = false ∧
     (handleToggleTodo s i cur (.error ())).1.error =
       some "Failed to update task. Please try again." ∧
     (handleToggleTodo s i cur (.error ())).1.todos = s.todos ∧
     (handleToggleTodo s i cur (.error ())).1.schedule = s.schedule) ∧
    ((handleDeleteTodo s i (.error ())).1.loading = false ∧
     (handleDeleteTodo s i (.error ())).1.error =
       some "Failed to delete task. Please try again." ∧
     (handleDeleteTodo s i (.error ())).1.todos = s.todos ∧
     (handleDeleteTodo s i (.error ())).1.schedule = s.schedule) ∧
    (¬ s.todos = [] →
     (handleGenerateSchedule s (.error ())).1.loading = false ∧
     (handleGenerateSchedule s (.error ())).1.error =
       some "Failed to generate schedule. Please try again." ∧
     (handleGenerateSchedule s (.error ())).1.todos = s.todos ∧
     (handleGenerateSchedule s (.error ())).1.schedule = s.schedule) := by
  refine ⟨⟨rfl, rfl, rfl, rfl⟩, ?_, ⟨rfl, rfl, rfl, rfl⟩,
    ⟨rfl, rfl, rfl, rfl⟩, ?_⟩
  · intro hadd
    have hadd' : (jsTrim s.taskInput == "") = false :=
      beq_eq_false_iff_ne.mpr hadd
    simp [handleAddTask, hadd']
  · intro hgen
    have hgen' : (s.todos.length == 0) = false := by
      refine beq_eq_false_iff_ne.mpr ?_
      simpa [List.length_eq_zero] using hgen
    simp [handleGenerateSchedule, hgen']

/-- Witness for C3 at a state with one task and a non-blank input. -/
theorem c3_failure_sets_generic_error_witness :
    ((fetchTodos busyStateDemo (.error ())).1.loading = false ∧
     (fetchTodos busyStateDemo (.error ())).1.error =
       some "Failed to load tasks. Please try again." ∧
     (fetchTodos busyStateDemo (.error ())).1.todos = busyStateDemo.todos ∧
     (fetchTodos busyStateDemo (.error ())).1.schedule =
       busyStateDemo.schedule) ∧
    ((handleAddTask busyStateDemo (.error ())).1.loading = false ∧
     (handleAddTask busyStateDemo (.error ())).1.error =
       some "Failed to add task. Please try again." ∧
     (handleAddTask busyStateDemo (.error ())).1.todos =
       busyStateDemo.todos ∧
     (handleAddTask busyStateDemo (.error ())).1.schedule =
       busyStateDemo.schedule) ∧
    ((handleToggleTodo busyStateDemo "t1" false (.error ())).1.loading
        = false ∧
     (handleToggleTodo busyStateDemo "t1" false (.error ())).1.error =
       some "Failed to update task. Please try again." ∧
     (handleToggleTodo busyStateDemo "t1" false (.error ())).1.todos =
       busyStateDemo.todos ∧
     (handleToggleTodo busyStateDemo "t1" false (.error ())).1.schedule =
       busyStateDemo.schedule) ∧
    ((handleDeleteTodo busyStateDemo "t1" (.error ())).1.loading = false ∧
     (handleDeleteTodo busyStateDemo "t1" (.error ())).1.error =
       some "Failed to delete task. Please try again." ∧
     (handleDeleteTodo busyStateDemo "t1" (.error ())).1.todos =
       busyStateDemo.todos ∧
     (handleDeleteTodo busyStateDemo "t1" (.error ())).1.schedule =
       busyStateDemo.schedule) ∧
    ((handleGenerateSchedule busyStateDemo (.error ())).1.loading = false ∧
     (handleGenerateSchedule busyStateDemo (.error ())).1.error =
       some "Failed to generate schedule. Please try again." ∧
     (handleGenerateSchedule busyStateDemo (.error ())).1.todos =
       busyStateDemo.todos ∧
     (handleGenerateSchedule busyStateDemo (.error ())).1.schedule =
       busyStateDemo.schedule) :=
  ⟨(c3_failure_sets_generic_error busyStateDemo "t1" false).1,
   (c3_failure_sets_generic_error busyStateDemo "t1" false).2.1 (by decide),
   (c3_failure_sets_generic_error busyStateDemo "t1" false).2.2.1,
   (c3_failure_sets_generic_error busyStateDemo "t1" false).2.2.2.1,
   (c3_failure_sets_generic_error busyStateDemo "t1" false).2.2.2.2
     (by decide)⟩

/-- C4: `createTodo` posts a body whose completed field defaults to false
when unset, and a valid (non-blank) add appends exactly the
backend-returned todo: length grows by one, the previous entries are an
unchanged prior segment, and the last entry is the backend todo (so its id
is the backend-assigned id). -/
theorem c4_create_appends (s : AppState) (newTodo : Todo) (t : String)
    (p : Priority) (h : ¬ jsTrim s.taskInput = "") :
    requestOf (.create { task := t, priority := p, completed := none }) =
      { method := "POST", url := "/todos",
        body := some (.createBody t p false), authorization := none } ∧
    (handleAddTask s (.ok newTodo)).2 =
      [.create { task := s.taskInput, priority := s.priorityInput,
                 completed := some false }] ∧
    (handleAddTask s (.ok newTodo)).1.todos = s.todos ++ [newTodo] ∧
    (handleAddTask s (.ok newTodo)).1.todos.length = s.todos.length + 1 ∧
    (handleAddTask s (.ok newTodo)).1.todos.take s.todos.length = s.todos ∧
    (handleAddTask s (.ok newTodo)).1.todos.getLast? = some newTodo := by
  have h' : (jsTrim s.taskInput == "") = false := beq_eq_false_iff_ne.mpr h
  refine ⟨rfl, ?_, ?_, ?_, ?_, ?_⟩
  all_goals simp [handleAddTask, h', List.take_left]

/-- Witness for C4 at a non-blank input. -/
theorem c4_create_appends_witness :
    requestOf (.create { task := "Write report", priority := .High,
                         completed := none }) =
      { method := "POST", url := "/todos",
        body := some (.createBody "Write report" Priority.High false),
        authorization := none } ∧
    (handleAddTask busyStateDemo (.ok todoDemo2)).2 =
      [.create { task := busyStateDemo.taskInput,
                 priority := busyStateDemo.priorityInput,
                 completed := some false }] ∧
    (handleAddTask busyStateDemo (.ok todoDemo2)).1.todos =
      busyStateDemo.todos ++ [todoDemo2] ∧
    (handleAddTask busyStateDemo (.ok todoDemo2)).1.todos.length =
      busyStateDemo.todos.length + 1 ∧
    (handleAddTask busyStateDemo
        (.ok todoDemo2)).1.todos.take busyStateDemo.todos.length =
      busyStateDemo.todos ∧
    (handleAddTask busyStateDemo (.ok todoDemo2)).1.todos.getLast? =
      some todoDemo2 :=
  c4_create_appends busyStateDemo todoDemo2 "Write report" .High (by decide)

/-- C5: a successful toggle round-trip on the id held at position `k` of a
list with unique ids replaces exactly position `k` with the
backend-returned todo, leaving length, order and every other entry
unchanged. -/
theorem c5_update_replaces_at_position (s : AppState) (i : String)
    (cur : Bool) (u : Todo) (k : Nat) (hk : k < s.todos.length)
    (hnd : (s.todos.map (fun x => x.id)).Nodup)
    (hid : (s.todos.get ⟨k, hk⟩).id = i) :
    (handleToggleTodo s i cur (.ok u)).1.todos = s.todos.set k u ∧
    (handleToggleTodo s i cur (.ok u)).1.todos.length =
      s.todos.length := by
  refine ⟨?_, by simp [handleToggleTodo]⟩
  simpa [handleToggleTodo] using map_subst_eq_set s.todos i u k hk hnd hid

/-- Witness for C5: toggling `t2` in a two-task list rewrites position 1. -/
theorem c5_update_replaces_at_position_witness :
    (handleToggleTodo twoStateDemo "t2" true (.ok updatedDemo)).1.todos =
      twoStateDemo.todos.set 1 updatedDemo ∧
    (handleToggleTodo twoStateDemo "t2" true
        (.ok updatedDemo)).1.todos.length = twoStateDemo.todos.length :=
  c5_update_replaces_at_position twoStateDemo "t2" true updatedDemo 1
    (by decide) (by decide) (by decide)

/-- C6: with unique ids, a successful delete of an id present in the list
removes exactly the entry carrying that id, keeping the rest in order. -/
theorem c6_delete_removes_exactly (s : AppState) (i : String) (t : Todo)
    (l₁ l₂ : List Todo) (hnd : (s.todos.map (fun x => x.id)).Nodup)
    (heq : s.todos = l₁ ++ t :: l₂) (hid : t.id = i) :
    (handleDeleteTodo s i (.ok ())).1.todos = l₁ ++ l₂ := by
  subst hid
  show s.todos.filter (fun todo => todo.id != t.id) = l₁ ++ l₂
  rw [heq]
  exact filter_erase_unique l₁ l₂ t (heq ▸ hnd)

/-- Witness for C6: deleting `t1` from a two-task list keeps only `t2`. -/
theorem c6_delete_removes_exactly_witness :
    (handleDeleteTodo twoStateDemo "t1" (.ok ())).1.todos =
      [] ++ [todoDemo2] :=
  c6_delete_removes_exactly twoStateDemo "t1" todoDemo [] [todoDemo2]
    (by decide) rfl rfl

/-- C10: a successful update or delete reconciliation with an id absent
from the list leaves the task list exactly unchanged. -/
theorem c10_absent_id_noop (s : AppState) (i : String) (cur : Bool)
    (u : Todo) (h : i ∉ s.todos.map (fun x => x.id)) :
    (handleToggleTodo s i cur (.ok u)).1.todos = s.todos ∧
    (handleDeleteTodo s i (.ok ())).1.todos = s.todos := by
  have h' : ∀ x ∈ s.todos, x.id ≠ i := fun x hx he =>
    h (he ▸ List.mem_map_of_mem _ hx)
  exact ⟨by simpa [handleToggleTodo] using map_subst_eq_self s.todos i u h',
         by simpa [handleDeleteTodo] using filter_ne_eq_self s.todos i h'⟩

/-- Witness for C10 at an id held by no entry of a two-task list. -/
theorem c10_absent_id_noop_witness :
    (handleToggleTodo twoStateDemo "zz" false (.ok updatedDemo)).1.todos =
      twoStateDemo.todos ∧
    (handleDeleteTodo twoStateDemo "zz" (.ok ())).1.todos =
      twoStateDemo.todos :=
  c10_absent_id_noop twoStateDemo "zz" false updatedDemo (by decide)

/-- C9: `getTodos` and `generateSchedule` both yield `[]` on a no-content
response and the backend array verbatim otherwise. -/
theorem c9_empty_on_no_content :
    getTodosResult none = [] ∧ generateScheduleResult none = [] ∧
    (∀ l : List Todo, getTodosResult (some l) = l) ∧
    (∀ l : List ScheduleItem, generateScheduleResult (some l) = l) :=
  ⟨rfl, rfl, fun _ => rfl, fun _ => rfl⟩

end DayForge
